import Mathlib

/-!
Verification of the cla-proxy forwarding core: a shallow embedding of the
request-forwarding layer (`cla_proxy/middleware.py`, `cla_proxy/error_handlers.py`,
`cla_proxy/config.py`, `cla_proxy/routes/v1/endpoints.py`) together with the
transport semantics they rely on (asyncio.wait_for, FastAPI exception-handler
dispatch, httpx mounts and keyword-argument JSON encoding).

JSON payloads are modelled by an inductive `Json` type; HTTP bodies in transit
stay in that AST, except where the source itself turns a model into a string
(`model_dump_json`), which is embedded by an executable renderer.
-/

namespace ClaProxy

/-- A JSON value: the payloads the proxy moves between caller and backend. -/
inductive Json where
  | null : Json
  | bool (b : Bool) : Json
  | num (n : Int) : Json
  | str (s : String) : Json
  | arr (xs : List Json) : Json
  | obj (fields : List (String × Json)) : Json

/-- JSON string escaping for the renderer (quote and backslash). -/
def escapeChar (c : Char) : String :=
  if c = '"' then "\\\"" else if c = '\\' then "\\\\" else String.singleton c

/-- Escape a whole string for inclusion in a JSON document. -/
def escapeString (s : String) : String :=
  String.join (s.toList.map escapeChar)

mutual

/-- Render a JSON value to its compact textual form; embeds the serializer
behind pydantic `model_dump_json` at the level of JSON documents. -/
def Json.render : Json → String
  | .null => "null"
  | .bool b => if b then "true" else "false"
  | .num n => toString n
  | .str s => "\"" ++ escapeString s ++ "\""
  | .arr xs => "[" ++ Json.renderList xs ++ "]"
  | .obj fs => "\x7b" ++ Json.renderFields fs ++ "\x7d"

/-- Render the comma-separated elements of a JSON array. -/
def Json.renderList : List Json → String
  | [] => ""
  | [x] => Json.render x
  | x :: y :: rest => Json.render x ++ "," ++ Json.renderList (y :: rest)

/-- Render the comma-separated members of a JSON object. -/
def Json.renderFields : List (String × Json) → String
  | [] => ""
  | [(k, v)] => "\"" ++ escapeString k ++ "\":" ++ Json.render v
  | (k, v) :: f :: rest =>
      "\"" ++ escapeString k ++ "\":" ++ Json.render v ++ "," ++ Json.renderFields (f :: rest)

end

/-- An HTTP response as delivered to the caller: a status code and a JSON body. -/
structure HttpResponse where
  status : Nat
  body : Json

/-- The exceptions that can cross component boundaries in the embedded core. -/
inductive Exn where
  | httpException (status : Nat) (detail : String) : Exn
  | typeError (msg : String) : Exn
  | jsonDecodeError : Exn
  | validationError : Exn
  | transportError : Exn
deriving Repr, DecidableEq

/- ----------------------------------------------------------------
   middleware.py : timeout_middleware (DeadlineGuard)
   ---------------------------------------------------------------- -/

/-- The fixed fallback message of `timeout_middleware` (`err_msg` in the source). -/
def err_msg : String :=
  "There was a problem while generating an answer. Please try again."

/-- The fixed fallback body produced on timeout:
the JSON document `data.text = err_msg`. -/
def timeoutFallbackBody : Json :=
  .obj [("data", .obj [("text", .str err_msg)])]

/-- One run of the downstream pipeline (`call_next`): how long it takes, and
the result it would deliver (a response, or a raised exception). -/
structure PipelineRun where
  duration : Nat
  result : Except Exn HttpResponse

/-- Embedding of `timeout_middleware`: `asyncio.wait_for(call_next(request),
timeout)` delivers the pipeline result when it completes within the timeout and
raises `asyncio.TimeoutError` otherwise; the middleware catches exactly that
exception and answers 504 with the fixed fallback body. -/
def timeout_middleware (timeout : Int) (run : PipelineRun) : Except Exn HttpResponse :=
  if timeout < (run.duration : Int) then
    .ok ⟨504, timeoutFallbackBody⟩
  else
    run.result

/- ----------------------------------------------------------------
   error_handlers.py : cla_exception_handler + registration
   ---------------------------------------------------------------- -/

/-- Embedding of `cla_exception_handler`: rewrites an `HTTPException` into the
CLA error envelope, keeping the status and using the detail message. -/
def cla_exception_handler (status : Nat) (detail : String) : HttpResponse :=
  ⟨status, .obj [("errors", .arr [.obj [("status", .num status), ("detail", .str detail)]])]⟩

/-- The statuses `register_exception_handlers` wires to `cla_exception_handler`. -/
def registeredStatuses : List Nat := [403, 408, 503, 504]

/-- The transport default error representation for an `HTTPException`:
FastAPI answers `detail = message` with the exception status when no custom
handler is registered. -/
def default_exception_handler (status : Nat) (detail : String) : HttpResponse :=
  ⟨status, .obj [("detail", .str detail)]⟩

/-- FastAPI exception-handler dispatch after `register_exception_handlers`:
an `HTTPException` whose status is registered goes to `cla_exception_handler`,
every other status goes to the transport default handler. -/
def handle_http_exception (status : Nat) (detail : String) : HttpResponse :=
  if status ∈ registeredStatuses then cla_exception_handler status detail
  else default_exception_handler status detail

/- ----------------------------------------------------------------
   config.py : Logging, Auth, Backend, convert_to_http_transport
   ---------------------------------------------------------------- -/

/-- The allowed log levels of `Logging.normalize_level`. -/
def allowed_levels : List String :=
  ["CRITICAL", "ERROR", "WARNING", "INFO", "DEBUG", "NOTSET"]

/-- Embedding of Python `str.upper` on one character, faithful on every
character that can reach the allowed level names. ASCII letters uppercase as
usual; the only two non-ASCII characters whose Python uppercase is an ASCII
letter occurring in those names are dotless i (to `I`) and long s (to `S`).
Every other character is left unchanged: its Python uppercase never lands in
the alphabet of the allowed names (the expanding ligature uppercases `FF`,
`FI`, `FL`, `FFI`, `FFL`, `SS`, `ST` occur as substrings of none of them), so
membership of the uppercased string in the allowed set, and the stored value
when it is a member, agree with Python on all inputs. -/
def py_upper_char (c : Char) : Char :=
  if c = 'ı' then 'I' else if c = 'ſ' then 'S' else c.toUpper

/-- Uppercase a string character by character: the embedding of Python
`str.upper` (see `py_upper_char`). -/
def str_upper (s : String) : String :=
  ⟨s.data.map py_upper_char⟩

/-- Embedding of the `Logging.normalize_level` field validator: uppercase the
input, accept it when it is in the allowed list, raise `ValueError` otherwise. -/
def normalize_level (v : String) : Except String String :=
  let level := str_upper v
  if level ∈ allowed_levels then .ok level
  else .error ("The requested level is not allowed.")

/-- The `[logging]` config section: a validated level string. -/
structure Logging where
  level : String
deriving Repr, DecidableEq

/-- Pydantic construction of `Logging`: the stored level is the output of the
`normalize_level` validator; a `ValueError` from the validator fails construction. -/
def Logging.construct (level : String) : Except String Logging :=
  (normalize_level level).map Logging.mk

/-- The `[backend].auth` config section: certificate and key file paths. -/
structure Auth where
  cert_file : String
  key_file : String
deriving Repr, DecidableEq

/-- An httpx `HTTPTransport`: either built around a proxy URL, or direct. -/
structure Transport where
  proxy : Option String
deriving Repr, DecidableEq

/-- The mounts dictionary `convert_to_http_transport` produces when every
`HTTPTransport(proxy=v)` call succeeds: each `(scheme, proxyUrl)` pair of the
config becomes the mount entry `scheme ++ "://" ↦ HTTPTransport proxyUrl`.
The failure path of the comprehension is embedded by
`convert_to_http_transport_checked`. -/
def convert_to_http_transport (proxies : List (String × String)) : List (String × Transport) :=
  proxies.map (fun kv => (kv.1 ++ "://", ⟨some kv.2⟩))

/-- The proxy URL schemes httpx `HTTPTransport` accepts. -/
def supported_proxy_schemes : List String :=
  [("http"), ("https"), ("socks5")]

/-- Embedding of the httpx `HTTPTransport(proxy=v)` constructor: parsing the
proxy URL raises at construction unless the URL carries a supported scheme;
with a supported scheme it yields the transport routing through that proxy. -/
def Transport.construct (v : String) : Except String Transport :=
  if supported_proxy_schemes.any (fun s => List.isPrefixOf (s ++ "://").data v.data) then
    .ok ⟨some v⟩
  else
    .error ("Unknown scheme for proxy URL")

/-- Embedding of `convert_to_http_transport` including its failure path: the
dict comprehension calls `HTTPTransport(proxy=v)` for every entry, so one
malformed proxy URL raises out of the comprehension; when every call succeeds
the mounts are exactly `convert_to_http_transport proxies`. -/
def convert_to_http_transport_checked (proxies : List (String × String)) :
    Except String (List (String × Transport)) :=
  match proxies with
  | [] => .ok []
  | (k, v) :: rest => do
      let t ← Transport.construct v
      let restMounts ← convert_to_http_transport_checked rest
      return ((k ++ "://", t) :: restMounts)

/-- The `[backend]` config section: endpoint, auth identity, proxy mounts,
timeout in seconds. -/
structure Backend where
  endpoint : String
  auth : Auth
  proxies : List (String × Transport)
  timeout : Int
deriving Repr, DecidableEq

/-- Pydantic construction of `Backend`: the proxies mapping passes through the
`convert_to_http_transport` before-validator, whose `HTTPTransport` calls can
raise — a malformed proxy URL fails construction. The `timeout` field is a
plain `int` with no value constraint, so every integer is accepted. -/
def Backend.construct (endpoint : String) (auth : Auth)
    (proxies : List (String × String)) (timeout : Int) : Except String Backend :=
  match convert_to_http_transport_checked proxies with
  | .ok mounts => .ok ⟨endpoint, auth, mounts, timeout⟩
  | .error e => .error e

/- ----------------------------------------------------------------
   httpx client construction and mount routing
   ---------------------------------------------------------------- -/

/-- The outbound httpx client as configured by the endpoint handlers:
`httpx.Client(cert=(cert_file, key_file), timeout=backend.timeout,
mounts=backend.proxies)`. -/
structure Client where
  cert : String × String
  timeout : Int
  mounts : List (String × Transport)
deriving Repr, DecidableEq

/-- The client both endpoint handlers build from the backend settings. -/
def build_client (b : Backend) : Client :=
  ⟨(b.auth.cert_file, b.auth.key_file), b.timeout, b.proxies⟩

/-- The httpx mount-routing rule for scheme-only mount patterns: an outbound
call whose URL scheme is `scheme` uses the transport mounted at
`scheme ++ "://"`; with no matching mount the call uses a direct connection. -/
def routeFor (mounts : List (String × Transport)) (scheme : String) : Transport :=
  match mounts.lookup (scheme ++ "://") with
  | some t => t
  | none => ⟨none⟩

/- ----------------------------------------------------------------
   routes/v1/endpoints.py : the Forwarder
   ---------------------------------------------------------------- -/

/-- Modelled from the spec: `ChatCompletionRequest` lives in
`routes/v1/models.py`, which is not among the sources; the spec describes it as
a pass-through schema mirroring the backend request shape, whose contents the
core does not interpret. It is embedded as an uninterpreted bag of JSON fields. -/
structure ChatCompletionRequest where
  fields : List (String × Json)

/-- The JSON representation of a request under the pass-through schema. -/
def ChatCompletionRequest.toJson (r : ChatCompletionRequest) : Json :=
  .obj r.fields

/-- Pydantic `model_dump_json`: serialize the model to the text of its JSON
document. -/
def ChatCompletionRequest.model_dump_json (r : ChatCompletionRequest) : String :=
  Json.render r.toJson

/-- Modelled from the spec: `ChatCompletionResponse` (from the absent
`routes/v1/models.py`) is a pass-through schema. `ChatCompletionResponse(**x)`
requires `x` to be a mapping — a non-mapping raises `TypeError` — and performs
structural validation only. -/
structure ChatCompletionResponse where
  fields : List (String × Json)

/-- Construction by keyword expansion `ChatCompletionResponse(**x)`. -/
def ChatCompletionResponse.construct : Json → Except Exn ChatCompletionResponse
  | .obj fs => .ok ⟨fs⟩
  | _ => .error (.typeError ("argument after ** must be a mapping"))

/-- Modelled from the spec: `ModelsResponse` (from the absent
`routes/v1/models.py`) is a pass-through schema, built by `ModelsResponse(**x)`
like the chat-completion response. -/
structure ModelsResponse where
  fields : List (String × Json)

/-- Construction by keyword expansion `ModelsResponse(**x)`. -/
def ModelsResponse.construct : Json → Except Exn ModelsResponse
  | .obj fs => .ok ⟨fs⟩
  | _ => .error (.typeError ("argument after ** must be a mapping"))

/-- The observable outcome of one backend HTTP call: a reply whose body is
valid JSON, a reply whose body fails JSON decoding in `result.json()`, or a
raised transport exception. -/
inductive CallOutcome where
  | reply (status : Nat) (body : Json) : CallOutcome
  | replyInvalidJson (status : Nat) : CallOutcome
  | raiseExn (e : Exn) : CallOutcome

/-- Resource and network events a request handler performs, in order. -/
inductive Event where
  | clientOpen (c : Client) : Event
  | httpPost (url : String) (body : Json) : Event
  | httpGet (url : String) : Event
  | clientClose (c : Client) : Event

/-- The observable run of one request handler: its event trace and its result
(a typed response, or a raised exception). -/
structure RunResult (α : Type) where
  trace : List Event
  result : Except Exn α

/-- Embedding of the `chat_completions` endpoint handler. The `with
httpx.Client(...)` block opens the client, performs the POST and closes the
client on every exit path, normal or exceptional; `result.json()` and the
response construction run after the block. httpx JSON-encodes the value given
to the `json=` keyword argument: the source passes the string
`data.model_dump_json()`, so the body on the wire is the JSON *string*
`Json.str data.model_dump_json`. `result.status_code` is never consulted. -/
def chat_completions (cfg : Backend) (backend : String → Json → CallOutcome)
    (data : ChatCompletionRequest) : RunResult ChatCompletionResponse :=
  let client := build_client cfg
  let endpoint := cfg.endpoint ++ "/chat/completions"
  let wireBody := Json.str data.model_dump_json
  { trace := [.clientOpen client, .httpPost endpoint wireBody, .clientClose client]
    result :=
      match backend endpoint wireBody with
      | .raiseExn e => .error e
      | .replyInvalidJson _ => .error .jsonDecodeError
      | .reply _ body => ChatCompletionResponse.construct body }

/-- Embedding of the `list_models` endpoint handler: same scoped client, a GET
to `<endpoint>/models`, and `ModelsResponse(**result.json())` after the block.
`result.status_code` is never consulted. -/
def list_models (cfg : Backend) (backend : String → CallOutcome) :
    RunResult ModelsResponse :=
  let client := build_client cfg
  let endpoint := cfg.endpoint ++ "/models"
  { trace := [.clientOpen client, .httpGet endpoint, .clientClose client]
    result :=
      match backend endpoint with
      | .raiseExn e => .error e
      | .replyInvalidJson _ => .error .jsonDecodeError
      | .reply _ body => ModelsResponse.construct body }

/-- A backend that answers every call by echoing back exactly the body it
received. -/
def echoBackend : String → Json → CallOutcome :=
  fun _ body => .reply 200 body

/-- A concrete backend configuration used for concrete evaluations. -/
def cfgEx : Backend :=
  ⟨("https://backend.example"), ⟨("cert.pem"), ("key.pem")⟩, [], 30⟩

/-- A concrete chat-completion request used for concrete evaluations. -/
def reqEx : ChatCompletionRequest :=
  ⟨[("model", .str ("granite"))]⟩

/- ----------------------------------------------------------------
   Helper lemmas
   ---------------------------------------------------------------- -/

/-- Appending a common suffix to strings is cancellative. -/
theorem string_append_cancel_right (a b s : String) (h : a ++ s = b ++ s) : a = b := by
  have hd : a.data ++ s.data = b.data ++ s.data := by
    have := congrArg String.data h
    simpa [String.data_append] using this
  exact String.ext (List.append_cancel_right hd)

/-- Looking up `k ++ "://"` in the converted mounts is looking up `k` in the
raw proxies mapping. -/
theorem lookup_convert_to_http_transport (proxies : List (String × String)) (k : String) :
    (convert_to_http_transport proxies).lookup (k ++ "://")
      = (proxies.lookup k).map (fun v => (⟨some v⟩ : Transport)) := by
  induction proxies with
  | nil => rfl
  | cons p rest ih =>
      obtain ⟨k₁, v₁⟩ := p
      have hcons : convert_to_http_transport ((k₁, v₁) :: rest)
          = (k₁ ++ "://", (⟨some v₁⟩ : Transport)) :: convert_to_http_transport rest := rfl
      rw [hcons, List.lookup_cons, List.lookup_cons]
      by_cases h : k = k₁
      · subst h
        simp
      · have h1 : (k ++ "://" == k₁ ++ "://") = false :=
          beq_eq_false_iff_ne.mpr fun hc => h (string_append_cancel_right k k₁ ("://") hc)
        have h2 : (k == k₁) = false := beq_eq_false_iff_ne.mpr h
        rw [h1, h2]
        exact ih

/-- A transport construction that does not raise yields the proxy transport. -/
theorem transport_construct_ok (v : String)
    (h : (Transport.construct v).isOk = true) :
    Transport.construct v = .ok ⟨some v⟩ := by
  unfold Transport.construct at h ⊢
  by_cases hif :
      (supported_proxy_schemes.any (fun s => List.isPrefixOf (s ++ "://").data v.data)) = true
  · rw [if_pos hif]
  · rw [if_neg hif] at h
    exact absurd h (by simp [Except.isOk, Except.toBool])

/-- When every proxy URL is accepted by `HTTPTransport`, the checked
comprehension returns exactly the mounts of `convert_to_http_transport`. -/
theorem convert_checked_eq_ok (proxies : List (String × String))
    (h : ∀ kv ∈ proxies, (Transport.construct kv.2).isOk = true) :
    convert_to_http_transport_checked proxies = .ok (convert_to_http_transport proxies) := by
  induction proxies with
  | nil => rfl
  | cons p rest ih =>
      obtain ⟨k, v⟩ := p
      have hv := transport_construct_ok v (h (k, v) (by simp))
      have hr := ih (fun kv hkv => h kv (by simp [hkv]))
      simp only [convert_to_http_transport_checked, hv, hr]
      rfl

/- ----------------------------------------------------------------
   Claim theorems
   ---------------------------------------------------------------- -/

/-- C1: whenever the pipeline takes longer than the configured timeout, the
caller receives exactly one response — the fixed gateway-timeout answer:
status 504 with body `data.text = err_msg` — delivered as a normal result
(`.ok`), so the timeout never propagates past the middleware; being a function
result, no second response can follow it. -/
theorem timeout_exceeded_single_504 (timeout : Int) (run : PipelineRun)
    (h : timeout < (run.duration : Int)) :
    timeout_middleware timeout run = .ok ⟨504, timeoutFallbackBody⟩ := by
  simp [timeout_middleware, h]

/-- Witness for C1: the spec scenario — timeout 2 seconds, backend stalls for
5 seconds — yields the 504 fallback even though the pipeline would have
raised a transport error. -/
theorem timeout_exceeded_single_504_witness :
    timeout_middleware 2 ⟨5, .error .transportError⟩ = .ok ⟨504, timeoutFallbackBody⟩ :=
  timeout_exceeded_single_504 2 ⟨5, .error .transportError⟩ (by decide)

/-- C2: a raised HTTP error whose status is in the registered set
`403, 408, 503, 504` is answered with the same status and exactly the
error-envelope body using the error message as detail; an error with any other
status is answered by the transport default representation, which is not the
envelope. -/
theorem error_envelope_dispatch (status : Nat) (detail : String) :
    (status ∈ registeredStatuses →
      handle_http_exception status detail
        = ⟨status, .obj [("errors",
            .arr [.obj [("status", .num status), ("detail", .str detail)]])]⟩) ∧
    (status ∉ registeredStatuses →
      handle_http_exception status detail = default_exception_handler status detail ∧
      handle_http_exception status detail ≠ cla_exception_handler status detail) := by
  refine ⟨fun h => ?_, fun h => ⟨?_, ?_⟩⟩
  · simp [handle_http_exception, h, cla_exception_handler]
  · simp [handle_http_exception, h]
  · simp only [handle_http_exception, if_neg h, default_exception_handler,
      cla_exception_handler, ne_eq, HttpResponse.mk.injEq]
    intro hc
    exact absurd hc.2 (by simp)

/-- Witness for C2: a 403 error is wrapped in the envelope, a 401 error gets
the transport default representation. -/
theorem error_envelope_dispatch_witness :
    handle_http_exception 403 ("forbidden")
      = ⟨403, .obj [("errors",
          .arr [.obj [("status", .num 403), ("detail", .str ("forbidden"))]])]⟩ ∧
    handle_http_exception 401 ("unauthorized")
      = default_exception_handler 401 ("unauthorized") :=
  ⟨(error_envelope_dispatch 403 ("forbidden")).1 (by decide),
   ((error_envelope_dispatch 401 ("unauthorized")).2 (by decide)).1⟩

/-- C3 (failing input): the body the handler puts on the wire for the request
with fields `model = "granite"` is the JSON *string*
`"\x7b\"model\":\"granite\"\x7d"` — the output of `model_dump_json` encoded
again by the `json=` keyword — and not the request object itself, which is the
JSON representation the backend schema describes. -/
theorem chat_wire_body_double_encoded :
    (chat_completions cfgEx echoBackend reqEx).trace.get? 1
      = some (.httpPost ("https://backend.example/chat/completions")
          (.str ("\x7b\"model\":\"granite\"\x7d"))) ∧
    Json.str reqEx.model_dump_json ≠ reqEx.toJson :=
  ⟨rfl, fun h => Json.noConfusion h⟩

/-- C4 (failing input): against a backend that echoes exactly the body it
received, the chat-completion handler does not return a response whose fields
equal the request fields; the echoed body is the doubly-encoded JSON string,
so `ChatCompletionResponse(**result.json())` raises a `TypeError`. -/
theorem echo_roundtrip_type_error :
    (chat_completions cfgEx echoBackend reqEx).result
      = .error (.typeError ("argument after ** must be a mapping")) := rfl

/-- C5 counterexample: a backend reply with non-2xx status 500 whose body
parses into the schema produces a successful typed response from the
model-listing handler, so a successful typed response can be produced from a
non-2xx backend reply. -/
theorem non2xx_reply_yields_typed_success :
    (list_models cfgEx (fun _ => .reply 500 (.obj [("data", .arr [])]))).result
      = .ok ⟨[("data", .arr [])]⟩ := rfl

/-- C5 amended: the Forwarder never inspects the backend status — the result
is the same for any two statuses — and the outcome is decided by the body
alone: a body that parses into the schema yields the typed response (even for
a non-2xx status), and a body that fails JSON decoding is a generic failure
(regardless of status). -/
theorem forwarder_status_blind (cfg : Backend) (s₁ s₂ : Nat) (j : Json)
    (data : ChatCompletionRequest) :
    (chat_completions cfg (fun _ _ => .reply s₁ j) data).result
      = (chat_completions cfg (fun _ _ => .reply s₂ j) data).result ∧
    (chat_completions cfg (fun _ _ => .reply s₁ j) data).result
      = ChatCompletionResponse.construct j ∧
    (chat_completions cfg (fun _ _ => .replyInvalidJson s₁) data).result
      = .error .jsonDecodeError ∧
    (list_models cfg (fun _ => .reply s₁ j)).result = ModelsResponse.construct j ∧
    (list_models cfg (fun _ => .replyInvalidJson s₁)).result = .error .jsonDecodeError :=
  ⟨rfl, rfl, rfl, rfl, rfl⟩

/-- C6 counterexample: `Backend` construction accepts the non-positive timeout
`-1` and stores it unchanged, while `-1 > 0` is false — the loader does not
enforce positivity. -/
theorem nonpositive_timeout_construct_ok :
    Backend.construct ("https://backend.example") ⟨("cert.pem"), ("key.pem")⟩ [] (-1)
      = .ok ⟨("https://backend.example"), ⟨("cert.pem"), ("key.pem")⟩, [], -1⟩ ∧
    ¬(0 < (-1 : Int)) :=
  ⟨rfl, by decide⟩

/-- C6 amended: `Backend.timeout` is a plain integer field — whenever the
proxies mapping passes `HTTPTransport` construction, `Backend` construction
succeeds for every integer timeout, positive or not, and stores the given
value unchanged; and whether construction succeeds at all depends only on the
proxies mapping, never on the timeout. No positivity constraint is enforced
at construction. -/
theorem backend_construct_accepts_any_timeout (e : String) (a : Auth)
    (p : List (String × String)) (t : Int) :
    ((∀ kv ∈ p, ( Transport.construct kv.2).isOk = true) →
      Backend.construct e a p t = .ok ⟨e, a, convert_to_http_transport p, t⟩) ∧
    (Backend.construct e a p t).isOk = (convert_to_http_transport_checked p).isOk := by
  constructor
  · intro h
    simp [Backend.construct, convert_checked_eq_ok p h]
  · cases hc : convert_to_http_transport_checked p <;>
      simp [Backend.construct, hc, Except.isOk, Except.toBool]

/-- Witness for the amended C6: with one well-formed proxy entry and the
negative timeout `-7`, construction succeeds and stores `-7`. -/
theorem backend_construct_accepts_any_timeout_witness :
    Backend.construct ("https://backend.example") ⟨("cert.pem"), ("key.pem")⟩
        [(("http"), ("http://proxy:1111"))] (-7)
      = .ok ⟨("https://backend.example"), ⟨("cert.pem"), ("key.pem")⟩,
            [(("http://"), ⟨some ("http://proxy:1111")⟩)], -7⟩ :=
  (backend_construct_accepts_any_timeout ("https://backend.example")
      ⟨("cert.pem"), ("key.pem")⟩ [(("http"), ("http://proxy:1111"))] (-7)).1 (by decide)

/-- C7: constructing the logging configuration from a level string succeeds
exactly when the uppercased input is in the allowed set, in which case the
stored level is that uppercased form; otherwise construction raises. -/
theorem log_level_normalization (s : String) :
    (str_upper s ∈ allowed_levels → Logging.construct s = .ok ⟨str_upper s⟩) ∧
    (str_upper s ∉ allowed_levels →
      Logging.construct s = .error ("The requested level is not allowed.")) := by
  constructor <;> intro h <;>
    simp [Logging.construct, normalize_level, h, Except.map]

/-- Witness for C7: the mixed-case level string is accepted and stored
uppercased, as is the level spelled with a dotless i, whose Python uppercase
is `INFO`; an unknown level string is rejected. -/
theorem log_level_normalization_witness :
    Logging.construct ("iNfO") = .ok ⟨("INFO")⟩ ∧
    Logging.construct ("ınfo") = .ok ⟨("INFO")⟩ ∧
    Logging.construct ("verbose") = .error ("The requested level is not allowed.") :=
  ⟨(log_level_normalization ("iNfO")).1 (by decide),
   (log_level_normalization ("ınfo")).1 (by decide),
   (log_level_normalization ("verbose")).2 (by decide)⟩

/-- C8: mount routing after `convert_to_http_transport` — an outbound call
whose URL scheme has an entry in the configured proxies mapping is routed
through that proxy transport, and a scheme with no entry uses the direct
connection: the route for scheme `k` is the lookup of `k` in the raw mapping,
defaulting to direct. -/
theorem scheme_mount_routing (proxies : List (String × String)) (k : String) :
    routeFor (convert_to_http_transport proxies) k
      = ((proxies.lookup k).map (fun v => (⟨some v⟩ : Transport))).getD ⟨none⟩ := by
  unfold routeFor
  rw [lookup_convert_to_http_transport]
  cases proxies.lookup k <;> rfl

/-- C9: for every configuration, every backend behavior — reply, malformed
reply, or raised exception — and every request, each handler run opens exactly
one client, built by that run, uses it for exactly its own call and closes it
before the run ends: the trace is precisely open, call, close, for both the
chat-completion and the model-listing handler, on every outcome. -/
theorem scoped_client_per_request (cfg : Backend)
    (backendChat : String → Json → CallOutcome) (backendModels : String → CallOutcome)
    (data : ChatCompletionRequest) :
    (chat_completions cfg backendChat data).trace
      = [.clientOpen (build_client cfg),
         .httpPost (cfg.endpoint ++ "/chat/completions") (.str data.model_dump_json),
         .clientClose (build_client cfg)] ∧
    (list_models cfg backendModels).trace
      = [.clientOpen (build_client cfg),
         .httpGet (cfg.endpoint ++ "/models"),
         .clientClose (build_client cfg)] :=
  ⟨rfl, rfl⟩

/-- C10: the client each handler opens carries the configured backend timeout
as its own network timeout, for every configuration, backend behavior and
request. -/
theorem client_timeout_equals_config (cfg : Backend)
    (backendChat : String → Json → CallOutcome) (backendModels : String → CallOutcome)
    (data : ChatCompletionRequest) :
    (build_client cfg).timeout = cfg.timeout ∧
    (chat_completions cfg backendChat data).trace.head?
      = some (.clientOpen (build_client cfg)) ∧
    (list_models cfg backendModels).trace.head?
      = some (.clientOpen (build_client cfg)) :=
  ⟨rfl, rfl, rfl⟩

end ClaProxy
